import Mathlib

/-!
Verification of the confidence-routing decision pipeline of
`TESTFILES/ECMSPIPELINE/masteragent_ecms.py` (the SHIP-ONTOLOGY repository).

The Python module is shallowly embedded: Python floats are modelled as
rationals (`ℚ`), the remote HTTP calls of the Embedding Client and the
Reasoning Client are modelled by attempt-indexed outcome oracles
(`Nat → EmbedOutcome`, `Nat → LlmOutcome`), and `json.loads` (an external
library call) is modelled by an arbitrary parse oracle
`loads : String → Option Verdict`.  The cosine-similarity values of the
ontology index entries are taken as given inputs (the source computes them
with `numpy`; every claim under study quantifies over the similarity values
themselves, never over the raw vectors).
-/

namespace ECMS

/-! ### Configuration constants (masteragent_ecms.py lines 25-34) -/

def TOP_K : Nat := 5

def MIN_SIM : ℚ := 45/100

def SIM_GAP : ℚ := 6/100

def MAX_RETRIES : Nat := 2

/-- Decision threshold `NO_MATCH_THR = 0.40`. -/
def NO_MATCH_THR : ℚ := 40/100

/-- Decision threshold `HUMAN_REVIEW_THR = 0.45`. -/
def HUMAN_REVIEW_THR : ℚ := 45/100

/-! ### Status and `route_by_conf` (lines 197-202) -/

/-- The terminal statuses a Decision Row can carry. -/
inductive Status where
  | NO_MATCH
  | HUMAN_REVIEW
  | ACCEPT
  | SKIPPED_NOT_IN_STANDARD
deriving DecidableEq, Repr

/-- `route_by_conf(conf)`:
```python
if conf <= NO_MATCH_THR: return "NO_MATCH"
if conf <= HUMAN_REVIEW_THR: return "HUMAN_REVIEW"
return "ACCEPT"
``` -/
def route_by_conf (conf : ℚ) : Status :=
  if conf ≤ NO_MATCH_THR then Status.NO_MATCH
  else if conf ≤ HUMAN_REVIEW_THR then Status.HUMAN_REVIEW
  else Status.ACCEPT

/-- Rank of a routing status, ordering the three buckets produced by
`route_by_conf` from most to least pessimistic. -/
def statusRank : Status → Nat
  | Status.NO_MATCH => 0
  | Status.HUMAN_REVIEW => 1
  | Status.ACCEPT => 2
  | Status.SKIPPED_NOT_IN_STANDARD => 3

end ECMS

namespace ECMS

/-- Claim C1: `route_by_conf` is monotonic, and it partitions the confidence
line into exactly the three contiguous intervals cut by `NO_MATCH_THR` and
`HUMAN_REVIEW_THR`, with both boundary values inclusive on the lower
bucket: `c ≤ NO_MATCH_THR → NO_MATCH`,
`NO_MATCH_THR < c ≤ HUMAN_REVIEW_THR → HUMAN_REVIEW`, and
`c > HUMAN_REVIEW_THR → ACCEPT`.  The status is a pure function of the
confidence and the two thresholds. -/
theorem route_by_conf_monotone_partition (c c' : ℚ) (h : c ≤ c') :
    statusRank (route_by_conf c) ≤ statusRank (route_by_conf c') ∧
    (c ≤ NO_MATCH_THR → route_by_conf c = Status.NO_MATCH) ∧
    (NO_MATCH_THR < c → c ≤ HUMAN_REVIEW_THR →
      route_by_conf c = Status.HUMAN_REVIEW) ∧
    (HUMAN_REVIEW_THR < c → route_by_conf c = Status.ACCEPT) := by
  unfold route_by_conf statusRank NO_MATCH_THR HUMAN_REVIEW_THR
  constructor
  · split_ifs <;> first | decide | linarith
  · refine ⟨fun hc => ?_, fun hc1 hc2 => ?_, fun hc => ?_⟩ <;>
      split_ifs <;> first | rfl | linarith

/-- Witness for C1 at the boundary pair `c = 0.40`, `c' = 0.45`. -/
theorem route_by_conf_monotone_partition_witness :
    (40/100 : ℚ) ≤ 45/100 ∧
    (statusRank (route_by_conf (40/100)) ≤ statusRank (route_by_conf (45/100)) ∧
     ((40/100 : ℚ) ≤ NO_MATCH_THR → route_by_conf (40/100) = Status.NO_MATCH) ∧
     (NO_MATCH_THR < (40/100 : ℚ) → (40/100 : ℚ) ≤ HUMAN_REVIEW_THR →
       route_by_conf (40/100) = Status.HUMAN_REVIEW) ∧
     (HUMAN_REVIEW_THR < (40/100 : ℚ) → route_by_conf (40/100) = Status.ACCEPT)) :=
  ⟨by norm_num, route_by_conf_monotone_partition (40/100) (45/100) (by norm_num)⟩

/-! ### Embedding Client (`embed_text`, lines 99-133)

```python
def embed_text(text, dim):
    key = text.strip()
    if key in _EMBED_CACHE:
        return _EMBED_CACHE[key]
    ...
    for attempt in range(MAX_RETRIES + 5):
        try:
            throttle()
            r = requests.post(EMBED_URL, ...)
            if r.status_code == 200:
                vec = ...; _EMBED_CACHE[key] = vec; return vec
            if r.status_code == 403:
                raise RuntimeError("403: Not on Aalto network / VPN")
            if r.status_code == 429:
                time.sleep(...); continue
            time.sleep(...); continue          # other non-200
        except requests.exceptions.RequestException:
            time.sleep(...)
    return np.zeros(dim, dtype=np.float32)     # exhausted retries
```

One HTTP POST is issued per loop iteration; the outcome of attempt `i` is
supplied by the oracle `o i`.  Sleeps are not modelled (they do not affect
the returned value).  A result of `Except.error msg` models the Python
`raise RuntimeError(msg)` on a 403 response. -/

/-- Outcome of one HTTP POST of the Embedding Client, as distinguished by
`embed_text`: a 200 response carrying a decoded vector, a 403, a 429,
any other non-200 status, or a `requests.exceptions.RequestException`. -/
inductive EmbedOutcome where
  | ok (vec : List ℚ)
  | status403
  | status429
  | otherStatus (code : Nat)
  | reqException
deriving DecidableEq, Repr

/-- Python `str.strip()`: remove leading and trailing whitespace.
(Defined over the character list so that it evaluates by kernel
reduction; `String.trim` of the core library is extensionally the same
on ASCII text but is defined by well-founded recursion.) -/
def pyStrip (s : String) : String :=
  String.mk (((s.data.dropWhile Char.isWhitespace).reverse.dropWhile
    Char.isWhitespace).reverse)

/-- The module-level `_EMBED_CACHE` dict, keyed by the stripped text. -/
def Cache := List (String × List ℚ)

/-- Dictionary lookup in `_EMBED_CACHE`. -/
def cacheLookup (c : Cache) (k : String) : Option (List ℚ) :=
  match c with
  | [] => none
  | (k', v) :: rest => if k' = k then some v else cacheLookup rest k

/-- Retry loop of `embed_text` (lines 107-133).  Arguments of the recursion:
current attempt index, HTTP requests issued so far, remaining attempts
(fuel, initially `MAX_RETRIES + 5`).  Returns the result (`Except.error`
models the 403 `raise`), the cache after the call, and the total number of
HTTP requests issued. -/
def embedLoop (key : String) (dim : Nat) (o : Nat → EmbedOutcome)
    (cache : Cache) : Nat → Nat → Nat → Except String (List ℚ) × Cache × Nat
  | _, reqs, 0 => (Except.ok (List.replicate dim 0), cache, reqs)
  | attempt, reqs, fuel + 1 =>
    match o attempt with
    | EmbedOutcome.ok vec => (Except.ok vec, (key, vec) :: cache, reqs + 1)
    | EmbedOutcome.status403 =>
        (Except.error "403: Not on Aalto network / VPN", cache, reqs + 1)
    | EmbedOutcome.status429 => embedLoop key dim o cache (attempt + 1) (reqs + 1) fuel
    | EmbedOutcome.otherStatus _ => embedLoop key dim o cache (attempt + 1) (reqs + 1) fuel
    | EmbedOutcome.reqException => embedLoop key dim o cache (attempt + 1) (reqs + 1) fuel

/-- Embeds `embed_text(text, dim)`: cache hit short-circuits with zero HTTP
requests; otherwise the retry loop runs with budget `MAX_RETRIES + 5`. -/
def embed_text (cache : Cache) (text : String) (dim : Nat)
    (o : Nat → EmbedOutcome) : Except String (List ℚ) × Cache × Nat :=
  let key := pyStrip text
  match cacheLookup cache key with
  | some v => (Except.ok v, cache, 0)
  | none => embedLoop key dim o cache 0 0 (MAX_RETRIES + 5)

/-- An outcome on which `embed_text` keeps retrying: 429, any other
non-200 non-403 status, or a request exception. -/
def retryable : EmbedOutcome → Bool
  | EmbedOutcome.status429 => true
  | EmbedOutcome.otherStatus _ => true
  | EmbedOutcome.reqException => true
  | _ => false

theorem embedLoop_all_retryable (key : String) (dim : Nat)
    (o : Nat → EmbedOutcome) (cache : Cache) :
    ∀ fuel attempt reqs, (∀ i, i < fuel → retryable (o (attempt + i)) = true) →
    embedLoop key dim o cache attempt reqs fuel =
      (Except.ok (List.replicate dim 0), cache, reqs + fuel) := by
  intro fuel
  induction fuel with
  | zero => intro attempt reqs _; rfl
  | succ n ih =>
    intro attempt reqs h
    have h0 : retryable (o attempt) = true := by
      have := h 0 (Nat.succ_pos n); simpa using this
    have hrest : ∀ i, i < n → retryable (o (attempt + 1 + i)) = true := by
      intro i hi
      have := h (i + 1) (Nat.succ_lt_succ hi)
      simpa [Nat.add_assoc, Nat.add_comm 1 i] using this
    unfold embedLoop
    cases ho : o attempt with
    | ok vec => rw [ho] at h0; simp [retryable] at h0
    | status403 => rw [ho] at h0; simp [retryable] at h0
    | status429 =>
        rw [ih (attempt + 1) (reqs + 1) hrest]
        simp [Nat.add_assoc, Nat.add_comm 1 n]
    | otherStatus code =>
        rw [ih (attempt + 1) (reqs + 1) hrest]
        simp [Nat.add_assoc, Nat.add_comm 1 n]
    | reqException =>
        rw [ih (attempt + 1) (reqs + 1) hrest]
        simp [Nat.add_assoc, Nat.add_comm 1 n]

/-- Claim C6: if the text is not cached and every one of the
`MAX_RETRIES + 5` attempts fails with a retryable outcome (429, another
non-200 status, or a transient request exception), `embed_text` returns the
deterministic all-zero vector of the requested dimension `dim` rather than
raising, having issued all `MAX_RETRIES + 5` requests; and only an HTTP 403
escapes this, raising immediately on the attempt that receives it. -/
theorem embed_text_exhaustion_zero_vector (cache : Cache) (text : String)
    (dim : Nat) (o : Nat → EmbedOutcome)
    (hmiss : cacheLookup cache (pyStrip text) = none)
    (hfail : ∀ i, i < MAX_RETRIES + 5 → retryable (o i) = true) :
    embed_text cache text dim o =
      (Except.ok (List.replicate dim 0), cache, MAX_RETRIES + 5) ∧
    (∀ o' : Nat → EmbedOutcome, o' 0 = EmbedOutcome.status403 →
      embed_text cache text dim o' =
        (Except.error "403: Not on Aalto network / VPN", cache, 1)) := by
  constructor
  · unfold embed_text
    simp only [hmiss]
    have := embedLoop_all_retryable (pyStrip text) dim o cache (MAX_RETRIES + 5) 0 0
      (by intro i hi; simpa using hfail i hi)
    simpa using this
  · intro o' h403
    unfold embed_text
    simp only [hmiss]
    show embedLoop (pyStrip text) dim o' cache 0 0 (MAX_RETRIES + 5) = _
    unfold embedLoop
    rw [h403]

/-- Witness for C6: a concrete run in which every attempt raises a request
exception, on dimension 3 with an empty cache. -/
theorem embed_text_exhaustion_zero_vector_witness :
    cacheLookup [] (pyStrip "temperature") = none ∧
    (∀ i, i < MAX_RETRIES + 5 →
      retryable ((fun _ => EmbedOutcome.reqException) i) = true) ∧
    embed_text [] "temperature" 3 (fun _ => EmbedOutcome.reqException) =
      (Except.ok (List.replicate 3 0), [], MAX_RETRIES + 5) :=
  ⟨rfl, fun _ _ => rfl,
    (embed_text_exhaustion_zero_vector [] "temperature" 3
      (fun _ => EmbedOutcome.reqException) rfl (fun _ _ => rfl)).1⟩

/-- An attempt oracle on which every HTTP POST raises a request exception. -/
def allExceptions : Nat → EmbedOutcome := fun _ => EmbedOutcome.reqException

/-- Counterexample to claim C9 as stated.  Two successive `embed_text` calls
with equal trimmed texts (`" temp "` and `"temp"`) in which the first call
exhausts its retries: the zero-vector fallback of line 133 is returned
WITHOUT being stored in `_EMBED_CACHE`, so both calls issue remote
embedding requests (seven each), refuting "at most one call issues a
remote embedding request". -/
theorem embed_text_recache_counterexample :
    (embed_text [] " temp " 2 allExceptions).2.2 = 7 ∧
    (embed_text (embed_text [] " temp " 2 allExceptions).2.1 "temp" 2
        allExceptions).2.2 = 7 := by
  constructor <;> rfl

theorem embedLoop_first_ok (key : String) (dim : Nat) (o : Nat → EmbedOutcome)
    (cache : Cache) (attempt reqs fuel : Nat) (v : List ℚ)
    (hok : o attempt = EmbedOutcome.ok v) :
    embedLoop key dim o cache attempt reqs (fuel + 1) =
      (Except.ok v, (key, v) :: cache, reqs + 1) := by
  unfold embedLoop; rw [hok]

/-- Claim C9 amended: if an `embed_text` call for an uncached text receives
a 200 response (here on its first attempt), the decoded vector is stored in
`_EMBED_CACHE` under the exact trimmed text key after a single remote
request, and every subsequent call whose text trims to the same key returns
the cached vector with zero remote requests.  (A call that exhausts its
retry budget returns the zero vector without caching it, so such a text can
be re-embedded — see the counterexample.) -/
theorem embed_text_caches_success (cache : Cache) (t1 t2 : String) (dim : Nat)
    (o o' : Nat → EmbedOutcome) (v : List ℚ)
    (heq : pyStrip t1 = pyStrip t2)
    (hmiss : cacheLookup cache (pyStrip t1) = none)
    (hok : o 0 = EmbedOutcome.ok v) :
    embed_text cache t1 dim o = (Except.ok v, (pyStrip t1, v) :: cache, 1) ∧
    embed_text ((pyStrip t1, v) :: cache) t2 dim o' =
      (Except.ok v, (pyStrip t1, v) :: cache, 0) := by
  constructor
  · unfold embed_text
    simp only [hmiss]
    exact embedLoop_first_ok (pyStrip t1) dim o cache 0 0 6 v hok
  · unfold embed_text
    have hhit : cacheLookup ((pyStrip t1, v) :: cache) (pyStrip t2) = some v := by
      unfold cacheLookup
      rw [heq, if_pos rfl]
    simp only [hhit]

/-- Witness for the amended C9: first call for `" temp "` succeeds at once,
the second call for `"temp"` is served from the cache with zero requests. -/
theorem embed_text_caches_success_witness :
    pyStrip " temp " = pyStrip "temp" ∧
    cacheLookup [] (pyStrip " temp ") = none ∧
    ((fun _ => EmbedOutcome.ok [(1 : ℚ), 0]) 0 = EmbedOutcome.ok [(1 : ℚ), 0]) ∧
    (embed_text [] " temp " 2 (fun _ => EmbedOutcome.ok [(1 : ℚ), 0]) =
      (Except.ok [(1 : ℚ), 0], [(pyStrip " temp ", [(1 : ℚ), 0])], 1) ∧
     embed_text [(pyStrip " temp ", [(1 : ℚ), 0])] "temp" 2 allExceptions =
      (Except.ok [(1 : ℚ), 0], [(pyStrip " temp ", [(1 : ℚ), 0])], 0)) :=
  ⟨by decide, rfl, rfl,
    embed_text_caches_success [] " temp " "temp" 2
      (fun _ => EmbedOutcome.ok [(1 : ℚ), 0]) allExceptions [(1 : ℚ), 0]
      (by decide) rfl rfl⟩

/-! ### Reasoning Client (`reason_llm`, lines 138-192)

```python
for attempt in range(MAX_RETRIES + 5):
    try:
        throttle()
        r = requests.post(LLM_URL, ...)
        if r.status_code == 200:
            content = r.json()["choices"][0]["message"]["content"]
            start, end = content.find("{"), content.rfind("}") + 1
            try:
                return json.loads(content[start:end])
            except Exception:
                return {"best_match": "", "confidence": 0.0, "reason": "LLM parse error"}
        if r.status_code == 403:
            raise RuntimeError("403: Not on Aalto network / VPN")
        if r.status_code == 429:
            time.sleep(...); continue
        return {"best_match": "", "confidence": 0.0, "reason": f"LLM API \x7br.status_code\x7d"}
    except requests.exceptions.RequestException:
        time.sleep(...)
return {"best_match": "", "confidence": 0.0, "reason": "LLM request failed (timeout/retries exhausted)"}
```

`json.loads` applied to the extracted substring is modelled by the parse
oracle `loads : String → Option Verdict` (`none` = the Python call raised,
`some v` = it produced a verdict object; the defensive field defaulting of
the caller is folded into `Verdict`). -/

/-- The verdict dictionary `best_match / confidence / reason`. -/
structure Verdict where
  best_match : String
  confidence : ℚ
  reason : String
deriving DecidableEq, Repr

/-- Outcome of one HTTP POST of the Reasoning Client: a 200 response
carrying the message content string, a 403, a 429, any other non-200
status, or a `requests.exceptions.RequestException`. -/
inductive LlmOutcome where
  | ok (content : String)
  | status403
  | status429
  | otherStatus (code : Nat)
  | reqException
deriving DecidableEq, Repr

/-- The character `[` is irrelevant here; the braces are built by code
point so that they never appear inside a string literal. -/
def lbrace : Char := Char.ofNat 123

def rbrace : Char := Char.ofNat 125

/-- Index of the first occurrence of `c`, scanning from position `i`. -/
def findAux (c : Char) : List Char → Nat → Option Nat
  | [], _ => none
  | x :: xs, i => if x = c then some i else findAux c xs (i + 1)

/-- Python `s.find(c)`: first index of `c` in `s`, or `-1`. -/
def pyFind (s : String) (c : Char) : Int :=
  match findAux c s.data 0 with
  | some i => (i : Int)
  | none => -1

/-- Python `s.rfind(c)`: last index of `c` in `s`, or `-1`. -/
def pyRFind (s : String) (c : Char) : Int :=
  match findAux c s.data.reverse 0 with
  | some i => (s.data.length - 1 - i : Int)
  | none => -1

/-- Python slicing `s[a:b]`: negative indices count from the end, then
both bounds are clamped to `[0, len(s)]`. -/
def pySlice (s : String) (a b : Int) : String :=
  let n : Int := s.data.length
  let a' := if a < 0 then a + n else a
  let b' := if b < 0 then b + n else b
  let a2 : Nat := (max a' 0).toNat
  let b2 : Nat := (min b' n).toNat
  String.mk ((s.data.drop a2).take (b2 - a2))

/-- Lines 173-174: `content[content.find("\x7b") : content.rfind("\x7d") + 1]`,
the substring between the first opening brace and the last closing brace. -/
def extractJson (content : String) : String :=
  pySlice content (pyFind content lbrace) (pyRFind content rbrace + 1)

/-- Retry loop of `reason_llm` (lines 155-192); same recursion arguments as
`embedLoop`.  Note that, unlike `embed_text`, a non-200 status other than
403 and 429 returns a fallback verdict at once instead of retrying. -/
def reasonLoop (loads : String → Option Verdict) (o : Nat → LlmOutcome) :
    Nat → Nat → Nat → Except String Verdict × Nat
  | _, reqs, 0 =>
      (Except.ok ⟨"", 0, "LLM request failed (timeout/retries exhausted)"⟩, reqs)
  | attempt, reqs, fuel + 1 =>
    match o attempt with
    | LlmOutcome.ok content =>
        (Except.ok (match loads (extractJson content) with
          | some v => v
          | none => ⟨"", 0, "LLM parse error"⟩), reqs + 1)
    | LlmOutcome.status403 =>
        (Except.error "403: Not on Aalto network / VPN", reqs + 1)
    | LlmOutcome.status429 => reasonLoop loads o (attempt + 1) (reqs + 1) fuel
    | LlmOutcome.otherStatus code =>
        (Except.ok ⟨"", 0, "LLM API " ++ toString code⟩, reqs + 1)
    | LlmOutcome.reqException => reasonLoop loads o (attempt + 1) (reqs + 1) fuel

/-- Embeds `reason_llm(query, candidates)`; the request payload (query and
candidate list) only influences the remote response, which the oracle `o`
supplies, so it is not a parameter of the model. -/
def reason_llm (loads : String → Option Verdict) (o : Nat → LlmOutcome) :
    Except String Verdict × Nat :=
  reasonLoop loads o 0 0 (MAX_RETRIES + 5)

/-- Parse oracle for the C7 counterexample: every string parses fine. -/
def c7Loads : String → Option Verdict := fun _ => some ⟨"m1", 9/10, "ok"⟩

/-- Attempt oracle for the C7 counterexample: the first POST draws an HTTP
500, every later POST would succeed. -/
def c7Outcomes : Nat → LlmOutcome := fun n =>
  if n = 0 then LlmOutcome.otherStatus 500 else LlmOutcome.ok "irrelevant"

/-- Counterexample to claim C7 as stated.  The first attempt receives a
non-success status 500 (neither 429 nor 403); `reason_llm` does NOT wait
and retry — it gives up after this single request and returns the
`LLM API 500` fallback verdict, although the next attempt would have
succeeded.  `embed_text` retries in the same situation, so the two retry
policies are not identical. -/
theorem reason_llm_other_status_counterexample :
    reason_llm c7Loads c7Outcomes =
      (Except.ok ⟨"", 0, "LLM API 500"⟩, 1) := by rfl

theorem reasonLoop_transient (loads : String → Option Verdict)
    (o : Nat → LlmOutcome) :
    ∀ fuel attempt reqs,
    (∀ i, i < fuel → o (attempt + i) = LlmOutcome.status429 ∨
      o (attempt + i) = LlmOutcome.reqException) →
    reasonLoop loads o attempt reqs fuel =
      (Except.ok ⟨"", 0, "LLM request failed (timeout/retries exhausted)"⟩,
        reqs + fuel) := by
  intro fuel
  induction fuel with
  | zero => intro attempt reqs _; rfl
  | succ n ih =>
    intro attempt reqs h
    have h0 := h 0 (Nat.succ_pos n)
    have hrest : ∀ i, i < n → o (attempt + 1 + i) = LlmOutcome.status429 ∨
        o (attempt + 1 + i) = LlmOutcome.reqException := by
      intro i hi
      have := h (i + 1) (Nat.succ_lt_succ hi)
      simpa [Nat.add_assoc, Nat.add_comm 1 i] using this
    unfold reasonLoop
    rcases h0 with h0 | h0 <;>
      · simp only [Nat.add_zero] at h0
        rw [h0, ih (attempt + 1) (reqs + 1) hrest]
        simp [Nat.add_assoc, Nat.add_comm 1 n]

/-- Claim C7 amended: `reason_llm` shares the Embedding Client's
retry/backoff treatment only for HTTP 429 and transient request
exceptions (which exhaust the same `MAX_RETRIES + 5` attempt budget and
then degrade); but on any other non-success status (≠ 403) it does NOT
retry — it returns the fallback verdict
`best_match = "", confidence = 0.0, reason = "LLM API <code>"`
immediately after that first response. -/
theorem reason_llm_other_status_immediate (loads : String → Option Verdict)
    (o : Nat → LlmOutcome) (code : Nat)
    (h : o 0 = LlmOutcome.otherStatus code) :
    reason_llm loads o = (Except.ok ⟨"", 0, "LLM API " ++ toString code⟩, 1) ∧
    (∀ o' : Nat → LlmOutcome,
      (∀ i, i < MAX_RETRIES + 5 → o' i = LlmOutcome.status429 ∨
        o' i = LlmOutcome.reqException) →
      reason_llm loads o' =
        (Except.ok ⟨"", 0, "LLM request failed (timeout/retries exhausted)"⟩,
          MAX_RETRIES + 5)) := by
  constructor
  · show reasonLoop loads o 0 0 (6 + 1) = _
    unfold reasonLoop
    rw [h]
  · intro o' h'
    show reasonLoop loads o' 0 0 (MAX_RETRIES + 5) = _
    have := reasonLoop_transient loads o' (MAX_RETRIES + 5) 0 0
      (by intro i hi; simpa using h' i hi)
    simpa using this

/-- Witness for the amended C7 at the concrete first-attempt status 500. -/
theorem reason_llm_other_status_immediate_witness :
    c7Outcomes 0 = LlmOutcome.otherStatus 500 ∧
    reason_llm c7Loads c7Outcomes =
      (Except.ok ⟨"", 0, "LLM API " ++ toString 500⟩, 1) :=
  ⟨rfl, (reason_llm_other_status_immediate c7Loads c7Outcomes 500 rfl).1⟩

/-- Claim C8: if a 200-status response carries message content whose
substring between the first opening brace and the last closing brace does
not parse as JSON, `reason_llm` returns the verdict with empty
`best_match`, confidence `0.0`, and the parse-failure reason
`"LLM parse error"` — without raising to the caller. -/
theorem reason_llm_parse_error (loads : String → Option Verdict)
    (o : Nat → LlmOutcome) (content : String)
    (hcontent : o 0 = LlmOutcome.ok content)
    (hparse : loads (extractJson content) = none) :
    reason_llm loads o = (Except.ok ⟨"", 0, "LLM parse error"⟩, 1) := by
  show reasonLoop loads o 0 0 (6 + 1) = _
  unfold reasonLoop
  rw [hcontent]
  simp only [hparse]

/-- Witness for C8: a content string with no braces at all (`json.loads`
receives the empty extracted substring, which no parser accepts). -/
theorem reason_llm_parse_error_witness :
    ((fun _ => LlmOutcome.ok "not a json object") 0 =
      LlmOutcome.ok "not a json object") ∧
    ((fun _ => (none : Option Verdict)) (extractJson "not a json object") = none) ∧
    reason_llm (fun _ => none) (fun _ => LlmOutcome.ok "not a json object") =
      (Except.ok ⟨"", 0, "LLM parse error"⟩, 1) :=
  ⟨rfl, rfl,
    reason_llm_parse_error (fun _ => none) (fun _ => LlmOutcome.ok "not a json object")
      "not a json object" rfl rfl⟩

/-! ### Routing Decision Engine (`run_multifile`, lines 255-355)

The per-variable processing of `run_multifile` is embedded in two layers:
`decideKept` is the decision taken for a kept, non-OOD variable as a
function of the similarity values of the ontology index entries (the
source computes them as `cosine_similarity(qvec, onto_vecs)`; every claim
under study quantifies over these similarity values, so they are inputs of
the model), and `processVar` adds the skip-list partition (lines 262-264),
the OOD gate and the embedding call in front of it, also counting the HTTP
requests issued for the variable. -/

/-- Helper `norm(s)` (lines 77-78): `str(s).strip().lower()`.  (The Python
`None → ""` case concerns missing CSV cells, outside this model.) -/
def pyLower (s : String) : String := String.mk (s.data.map Char.toLower)

def norm (s : String) : String := pyLower (pyStrip s)

/-- ASCII word character of the regex class `\w` used by `\b`. -/
def isWordChar (c : Char) : Bool := c.isAlphanum || c == '_'

/-- Does the text begin with the (lowercase) token, case-insensitively? -/
def tokenAt : List Char → List Char → Bool
  | [], _ => true
  | _ :: _, [] => false
  | a :: ts, c :: cs => (c.toLower == a) && tokenAt ts cs

/-- The disallowed-pattern tokens of `is_ood` (line 194-195):
`\bPkt|\bPLC|\bFW|\bDbgVar|\bChecksum` with `re.I`. -/
def oodTokens : List (List Char) :=
  [['p', 'k', 't'], ['p', 'l', 'c'], ['f', 'w'],
   ['d', 'b', 'g', 'v', 'a', 'r'],
   ['c', 'h', 'e', 'c', 'k', 's', 'u', 'm']]

/-- Scan for a token occurrence whose start sits at a word boundary
(start of string, or preceded by a non-word character). -/
def oodScan : Bool → List Char → Bool
  | _, [] => false
  | atBoundary, c :: cs =>
      (atBoundary && oodTokens.any (fun t => tokenAt t (c :: cs))) ||
        oodScan (!(isWordChar c)) cs

/-- Embeds `is_ood(name)`: `re.search` of the boundary-anchored token
alternation, case-insensitively. -/
def is_ood (name : String) : Bool := oodScan true name.data

/-- One entry of the ontology index paired with its cosine similarity to
the current query (the `id`/`sim` fields of the candidate dicts built on
line 296). -/
structure Candidate where
  id : String
  sim : ℚ
deriving DecidableEq, Repr

/-- Insertion of a candidate into a similarity-descending list. -/
def insertDesc (c : Candidate) : List Candidate → List Candidate
  | [] => [c]
  | d :: ds => if d.sim ≤ c.sim then c :: d :: ds else d :: insertDesc c ds

/-- Sort candidates by similarity, descending. -/
def sortDesc : List Candidate → List Candidate
  | [] => []
  | c :: cs => insertDesc c (sortDesc cs)

/-- Line 292: `idx = np.argsort(sims)[::-1][:TOP_K]` — the index entries
reordered by descending similarity, truncated to the top `TOP_K`.
(`np.argsort` breaks similarity ties by position; ties reorder only equal
`sim` values and no claim depends on the tie order.) -/
def selectTop (index : List Candidate) : List Candidate :=
  (sortDesc index).take TOP_K

/-- Line 293: `top_sim = float(sims[idx[0]]) if len(idx) else 0.0`. -/
def headSim : List Candidate → ℚ
  | [] => 0
  | c :: _ => c.sim

/-- Line 294: `second_sim = float(sims[idx[1]]) if len(idx) > 1 else 0.0`. -/
def secondSim : List Candidate → ℚ
  | _ :: c :: _ => c.sim
  | _ => 0

/-- The id of the top candidate, `onto_ids[idx[0]]`. -/
def headId : List Candidate → String
  | [] => ""
  | c :: _ => c.id

/-- One Decision Row (the `row` dicts appended to `all_results`); the
`file` column is constant per file and omitted. -/
structure DecisionRow where
  best_match : String
  confidence : ℚ
  reason : String
  status : Status
deriving DecidableEq, Repr

/-- A Decision Row plus the audit fields of the matching `all_audit` row
(`method`, `top_sim`, `margin`) and the number of LLM HTTP requests the
decision issued. -/
structure Decision where
  row : DecisionRow
  method : String
  top_sim : ℚ
  margin : ℚ
  llmRequests : Nat
deriving DecidableEq, Repr

def pad3 (m : Nat) : String :=
  if m < 10 then "00" ++ toString m
  else if m < 100 then "0" ++ toString m
  else toString m

/-- Fixed three-decimal rendering of a nonnegative rational, modelling the
Python format specifier `.3f` used in the reason strings (rounding half
away from zero; no claim branches on these strings). -/
def fmt3 (q : ℚ) : String :=
  let n : Nat := (Rat.floor (|q| * 1000 + 1/2)).toNat
  (if q < 0 then "-" else "") ++ toString (n / 1000) ++ "." ++ pad3 (n % 1000)

/-- Decision for a kept, non-OOD variable (lines 289-355), given the
similarities of the index entries: low-similarity abstain, margin-based
auto-accept, or LLM escalation via `reason_llm`. -/
def decideKept (index : List Candidate) (loads : String → Option Verdict)
    (lo : Nat → LlmOutcome) : Except String Decision :=
  let st := selectTop index
  let top_sim := headSim st
  let second_sim := secondSim st
  let margin := top_sim - second_sim
  if top_sim < MIN_SIM then
    Except.ok ⟨⟨"", top_sim,
      "Low similarity (top_sim=" ++ fmt3 top_sim ++ " < MIN_SIM=0.45)",
      route_by_conf top_sim⟩, "LOW_SIM", top_sim, margin, 0⟩
  else if 1 < st.length ∧ SIM_GAP ≤ margin then
    let best := headId st
    let final_conf := min (99/100 : ℚ) top_sim
    Except.ok ⟨⟨best, final_conf,
      "Auto by margin (top_sim=" ++ fmt3 top_sim ++ ", margin=" ++ fmt3 margin ++ ")",
      route_by_conf final_conf⟩, "AUTO_MARGIN", top_sim, margin, 0⟩
  else
    match reason_llm loads lo with
    | (Except.error e, _) => Except.error e
    | (Except.ok llm, n) =>
      Except.ok ⟨⟨llm.best_match, llm.confidence, llm.reason,
        route_by_conf llm.confidence⟩, "LLM", top_sim, margin, n⟩

/-- The reason of a SKIP_LIST row (line 267). -/
def skipReason : String :=
  "Skipped (Not found in standard / not defined in ontology)"

/-- An ASCII apostrophe, built by code point. -/
def squote : Char := Char.ofNat 39

/-- Per-variable processing of `run_multifile` (lines 255-355): the
skip-list partition, the OOD gate, then embedding and `decideKept`.  The
returned `Nat` counts every HTTP request issued for the variable
(embedding plus LLM); `Except.error` models an uncaught `RuntimeError`
aborting the run. -/
def processVar (skipSet : List String) (index : List Candidate) (dim : Nat)
    (cache : Cache) (eo : Nat → EmbedOutcome) (loads : String → Option Verdict)
    (lo : Nat → LlmOutcome) (name : String) :
    Except String (DecisionRow × String × Nat) :=
  if skipSet.contains (norm name) then
    Except.ok (⟨"", 0, skipReason, Status.SKIPPED_NOT_IN_STANDARD⟩, "SKIP_LIST", 0)
  else if is_ood name then
    Except.ok (⟨"", 0, "OOD", Status.NO_MATCH⟩, "OOD_GATE", 0)
  else
    let query := "Variable " ++ String.singleton squote ++ name ++
      String.singleton squote ++ " from OEM dataset"
    match embed_text cache query dim eo with
    | (Except.error e, _, _) => Except.error e
    | (Except.ok _qvec, _, ne) =>
      match decideKept index loads lo with
      | Except.error e => Except.error e
      | Except.ok d => Except.ok (d.row, d.method, ne + d.llmRequests)

section DecisionClaims

attribute [local semireducible] Rat.mul Rat.add Rat.sub Rat.inv Rat.ofScientific

/-- Counterexample to claim C2 as stated.  A kept, non-OOD variable whose
top similarity is `0.42`: this is below `MIN_SIM = 0.45`, so the
low-similarity branch fires (method `LOW_SIM`, empty `best_match`,
confidence `0.42`) — but the terminal status is
`route_by_conf(0.42) = HUMAN_REVIEW`, because `0.42` lies strictly between
`NO_MATCH_THR = 0.40` and `HUMAN_REVIEW_THR = 0.45`; it is not `NO_MATCH`. -/
theorem low_sim_status_counterexample :
    (decideKept [⟨"cand", 21/50⟩] (fun _ => none)
        (fun _ => LlmOutcome.reqException)).map
      (fun d => (d.method, d.row.best_match, d.row.confidence, d.row.status)) =
    Except.ok ("LOW_SIM", "", 21/50, Status.HUMAN_REVIEW) := by rfl

/-- Claim C2 amended: for every kept, non-OOD variable whose top similarity
is below `MIN_SIM`, the engine records a Decision Row with empty
`best_match`, confidence equal to that top similarity, method `LOW_SIM`,
zero LLM calls, and terminal status `route_by_conf(top similarity)` — which
is `NO_MATCH` exactly when the top similarity is at most `NO_MATCH_THR`
(as in the observed instance, top similarity `0.2`). -/
theorem decideKept_low_sim (index : List Candidate)
    (loads : String → Option Verdict) (lo : Nat → LlmOutcome)
    (h : headSim (selectTop index) < MIN_SIM) :
    ∃ d, decideKept index loads lo = Except.ok d ∧
      d.row.best_match = "" ∧
      d.row.confidence = headSim (selectTop index) ∧
      d.method = "LOW_SIM" ∧ d.llmRequests = 0 ∧
      d.row.status = route_by_conf (headSim (selectTop index)) ∧
      (headSim (selectTop index) ≤ NO_MATCH_THR →
        d.row.status = Status.NO_MATCH) := by
  simp only [decideKept]
  rw [if_pos h]
  exact ⟨_, rfl, rfl, rfl, rfl, rfl, rfl,
    fun hle => by unfold route_by_conf; rw [if_pos hle]⟩

/-- Witness for the amended C2 at the observed instance: a single index
entry of similarity `0.2`, giving status `NO_MATCH`. -/
theorem decideKept_low_sim_witness :
    headSim (selectTop [⟨"cand", 1/5⟩]) < MIN_SIM ∧
    (∃ d, decideKept [⟨"cand", (1:ℚ)/5⟩] (fun _ => none)
        (fun _ => LlmOutcome.reqException) = Except.ok d ∧
      d.row.best_match = "" ∧
      d.row.confidence = headSim (selectTop [⟨"cand", 1/5⟩]) ∧
      d.method = "LOW_SIM" ∧ d.llmRequests = 0 ∧
      d.row.status = route_by_conf (headSim (selectTop [⟨"cand", 1/5⟩])) ∧
      (headSim (selectTop [⟨"cand", 1/5⟩]) ≤ NO_MATCH_THR →
        d.row.status = Status.NO_MATCH)) :=
  ⟨by decide,
    decideKept_low_sim [⟨"cand", 1/5⟩] (fun _ => none)
      (fun _ => LlmOutcome.reqException) (by decide)⟩

/-- Claim C3: for every kept, non-OOD variable whose top similarity is at
least `MIN_SIM`, with at least two candidates and a similarity margin of
at least `SIM_GAP`, the engine auto-accepts without calling the LLM:
`best_match` is the top candidate id, confidence is
`min(0.99, top similarity)`, status is `route_by_conf` of that confidence,
and the audit method is `AUTO_MARGIN`. -/
theorem decideKept_auto_margin (index : List Candidate)
    (loads : String → Option Verdict) (lo : Nat → LlmOutcome)
    (h1 : MIN_SIM ≤ headSim (selectTop index))
    (h2 : 1 < (selectTop index).length)
    (h3 : SIM_GAP ≤ headSim (selectTop index) - secondSim (selectTop index)) :
    ∃ d, decideKept index loads lo = Except.ok d ∧
      d.row.best_match = headId (selectTop index) ∧
      d.row.confidence = min (99/100 : ℚ) (headSim (selectTop index)) ∧
      d.row.status = route_by_conf (min (99/100 : ℚ) (headSim (selectTop index))) ∧
      d.method = "AUTO_MARGIN" ∧ d.llmRequests = 0 := by
  simp only [decideKept]
  rw [if_neg (not_lt.mpr h1), if_pos ⟨h2, h3⟩]
  exact ⟨_, rfl, rfl, rfl, rfl, rfl, rfl⟩

/-- Witness for C3 at the spec's fake index: three entries with top
similarity `0.9` and second `0.5` (margin `0.4 ≥ SIM_GAP`): best match is
the top entry's id and confidence is `min(0.99, 0.9) = 0.9`. -/
theorem decideKept_auto_margin_witness :
    MIN_SIM ≤ headSim (selectTop [⟨"low", 3/10⟩, ⟨"top", 9/10⟩, ⟨"mid", 1/2⟩]) ∧
    (∃ d, decideKept [⟨"low", (3:ℚ)/10⟩, ⟨"top", 9/10⟩, ⟨"mid", 1/2⟩]
        (fun _ => none) (fun _ => LlmOutcome.reqException) = Except.ok d ∧
      d.row.best_match =
        headId (selectTop [⟨"low", 3/10⟩, ⟨"top", 9/10⟩, ⟨"mid", 1/2⟩]) ∧
      d.row.confidence = min (99/100 : ℚ)
        (headSim (selectTop [⟨"low", 3/10⟩, ⟨"top", 9/10⟩, ⟨"mid", 1/2⟩])) ∧
      d.row.status = route_by_conf (min (99/100 : ℚ)
        (headSim (selectTop [⟨"low", 3/10⟩, ⟨"top", 9/10⟩, ⟨"mid", 1/2⟩]))) ∧
      d.method = "AUTO_MARGIN" ∧ d.llmRequests = 0) :=
  ⟨by decide,
    decideKept_auto_margin [⟨"low", 3/10⟩, ⟨"top", 9/10⟩, ⟨"mid", 1/2⟩]
      (fun _ => none) (fun _ => LlmOutcome.reqException)
      (by decide) (by decide) (by decide)⟩

/-- Claim C4: a variable whose normalized (stripped, lowercased) name is in
the required skip set produces exactly the Decision Row with status
`SKIPPED_NOT_IN_STANDARD`, empty `best_match` and confidence `0.0`, with
zero HTTP requests (neither embedding nor LLM); the skip check is decided
before every other rule, whatever the name (OOD or not) and whatever the
index and the network would do. -/
theorem processVar_skip_list (skipSet : List String) (index : List Candidate)
    (dim : Nat) (cache : Cache) (eo : Nat → EmbedOutcome)
    (loads : String → Option Verdict) (lo : Nat → LlmOutcome) (name : String)
    (h : skipSet.contains (norm name) = true) :
    processVar skipSet index dim cache eo loads lo name =
      Except.ok (⟨"", 0, skipReason, Status.SKIPPED_NOT_IN_STANDARD⟩,
        "SKIP_LIST", 0) := by
  unfold processVar
  rw [if_pos h]

/-- Witness for C4: the skip-listed (normalized) name `"engine_speed"`
reached as `" Engine_Speed "` — an OOD-free name — with zero requests. -/
theorem processVar_skip_list_witness :
    (["engine_speed"].contains (norm " Engine_Speed ") = true) ∧
    processVar ["engine_speed"] [⟨"cand", 9/10⟩] 3 [] allExceptions
      (fun _ => none) (fun _ => LlmOutcome.reqException) " Engine_Speed " =
      Except.ok (⟨"", 0, skipReason, Status.SKIPPED_NOT_IN_STANDARD⟩,
        "SKIP_LIST", 0) :=
  ⟨by decide,
    processVar_skip_list ["engine_speed"] [⟨"cand", 9/10⟩] 3 [] allExceptions
      (fun _ => none) (fun _ => LlmOutcome.reqException) " Engine_Speed "
      (by decide)⟩

/-- Claim C5: a non-skip-listed variable whose name matches the
out-of-domain pattern (case-insensitive, word-boundary-anchored tokens
`Pkt`/`PLC`/`FW`/`DbgVar`/`Checksum`) gets status `NO_MATCH`, confidence
`0.0` and reason `"OOD"`, with zero HTTP requests — the Similarity Index
is never consulted. -/
theorem processVar_ood_gate (skipSet : List String) (index : List Candidate)
    (dim : Nat) (cache : Cache) (eo : Nat → EmbedOutcome)
    (loads : String → Option Verdict) (lo : Nat → LlmOutcome) (name : String)
    (hskip : skipSet.contains (norm name) = false)
    (hood : is_ood name = true) :
    processVar skipSet index dim cache eo loads lo name =
      Except.ok (⟨"", 0, "OOD", Status.NO_MATCH⟩, "OOD_GATE", 0) := by
  unfold processVar
  rw [if_neg (by simp only [hskip]; decide), if_pos hood]

/-- Witness for C5: the name `"PLC_Coolant"` (the token `PLC` at a word
boundary), not on the skip list. -/
theorem processVar_ood_gate_witness :
    ([] : List String).contains (norm "PLC_Coolant") = false ∧
    is_ood "PLC_Coolant" = true ∧
    processVar [] [⟨"cand", 9/10⟩] 3 [] allExceptions
      (fun _ => none) (fun _ => LlmOutcome.reqException) "PLC_Coolant" =
      Except.ok (⟨"", 0, "OOD", Status.NO_MATCH⟩, "OOD_GATE", 0) :=
  ⟨rfl, by decide,
    processVar_ood_gate [] [⟨"cand", 9/10⟩] 3 [] allExceptions
      (fun _ => none) (fun _ => LlmOutcome.reqException) "PLC_Coolant"
      rfl (by decide)⟩

/-- Claim C10 (implicit): under the shipped thresholds
(`NO_MATCH_THR = 0.40 < MIN_SIM = HUMAN_REVIEW_THR = 0.45`), a decision
produced by the margin auto-accept branch can never be `NO_MATCH`: the
branch requires a top similarity of at least `MIN_SIM`, so its confidence
`min(0.99, top similarity)` is at least `0.45 > NO_MATCH_THR`, and the
status is `HUMAN_REVIEW` or `ACCEPT`. -/
theorem auto_margin_not_no_match (index : List Candidate)
    (loads : String → Option Verdict) (lo : Nat → LlmOutcome) (d : Decision)
    (hd : decideKept index loads lo = Except.ok d)
    (hm : d.method = "AUTO_MARGIN") :
    d.row.status ≠ Status.NO_MATCH ∧
    (d.row.status = Status.HUMAN_REVIEW ∨ d.row.status = Status.ACCEPT) := by
  simp only [decideKept] at hd
  split_ifs at hd with h1 h2
  · injection hd with h
    subst h
    have hx : "LOW_SIM" = "AUTO_MARGIN" := hm
    exact absurd hx (by decide)
  · injection hd with h
    subst h
    have ht : MIN_SIM ≤ headSim (selectTop index) := not_lt.mp h1
    have hgt : NO_MATCH_THR < min (99/100 : ℚ) (headSim (selectTop index)) := by
      refine lt_min ?_ ?_
      · norm_num [NO_MATCH_THR]
      · refine lt_of_lt_of_le ?_ ht
        norm_num [NO_MATCH_THR, MIN_SIM]
    show route_by_conf (min (99/100 : ℚ) (headSim (selectTop index))) ≠ _ ∧ _
    unfold route_by_conf
    rw [if_neg (not_le.mpr hgt)]
    split_ifs with h3
    · exact ⟨by decide, Or.inl rfl⟩
    · exact ⟨by decide, Or.inr rfl⟩
  · split at hd
    · exact Except.noConfusion hd
    · injection hd with h
      subst h
      have hx : "LLM" = "AUTO_MARGIN" := hm
      exact absurd hx (by decide)

/-- A concrete two-entry index taking the auto-margin branch: top `0.5`,
second `0.4`, margin `0.1`. -/
def c10idx : List Candidate := [⟨"a", 1/2⟩, ⟨"b", 2/5⟩]

/-- The decision the engine reaches on `c10idx`: confidence
`min(0.99, 0.5) = 0.5`, status `ACCEPT`. -/
def c10dec : Decision :=
  ⟨⟨"a", 1/2, "Auto by margin (top_sim=0.500, margin=0.100)",
    Status.ACCEPT⟩, "AUTO_MARGIN", 1/2, 1/10, 0⟩

/-- Witness for C10 on `c10idx`: the auto-margin decision `c10dec` has
status `ACCEPT`, not `NO_MATCH`. -/
theorem auto_margin_not_no_match_witness :
    decideKept c10idx (fun _ => none) (fun _ => LlmOutcome.reqException) =
      Except.ok c10dec ∧
    c10dec.method = "AUTO_MARGIN" ∧
    (c10dec.row.status ≠ Status.NO_MATCH ∧
     (c10dec.row.status = Status.HUMAN_REVIEW ∨
      c10dec.row.status = Status.ACCEPT)) :=
  ⟨by rfl, rfl,
    auto_margin_not_no_match c10idx (fun _ => none)
      (fun _ => LlmOutcome.reqException) c10dec (by rfl) rfl⟩

end DecisionClaims

end ECMS


